import Mathlib

/-!
Shallow embedding of the resilient request pipeline of
`src/bot/do_agent.py` (class `DigitalOceanAgentClient`):
the token-bucket limiter (`_acquire_token`), the cooldown register
(`_register_cooldown`), the backoff computation (`_sleep_backoff`),
the retry loop (`_request_with_retries`), response validation
(`_handle_response`), the reply extraction heuristics
(`_extract_reply_text`, `_extract_endpoint_reply_text`) and the
session-id extraction in `create_session`.

Python floats are modelled as rationals, Python ints as integers.
Decoded JSON bodies are modelled by the inductive `Json`.
-/

/-- A decoded JSON-like value, as produced by `response.json()`. -/
inductive Json where
  | str (s : String)
  | num (q : ℚ)
  | bool (b : Bool)
  | null
  | arr (xs : List Json)
  | obj (fields : List (String × Json))

/-- Python truthiness (`bool(x)`) of a decoded JSON value. -/
def pyTruthy : Json → Bool
  | .str s => !s.isEmpty
  | .num q => q != 0
  | .bool b => b
  | .null => false
  | .arr xs => !xs.isEmpty
  | .obj fs => !fs.isEmpty

/-- The single-quote character, used by Python `repr` of strings. -/
def pyQuote : String := String.singleton (Char.ofNat 39)

/-- Rendering of a rational the way Python renders a number: integers
without a fractional part, and we keep a decimal-free fallback for
non-integers (only integral numbers occur in the claims). -/
def pyNumRepr (q : ℚ) : String :=
  if q.den = 1 then toString q.num else toString q

mutual
/-- Python `repr` of a decoded JSON value (dicts print as
`\x7b'k': v\x7d`, strings print quoted). -/
def pyRepr : Json → String
  | .str s => pyQuote ++ s ++ pyQuote
  | .num q => pyNumRepr q
  | .bool b => if b then "True" else "False"
  | .null => "None"
  | .arr xs => "[" ++ String.intercalate ", " (pyReprList xs) ++ "]"
  | .obj fs => "\x7b" ++ String.intercalate ", " (pyReprFields fs) ++ "\x7d"

def pyReprList : List Json → List String
  | [] => []
  | x :: xs => pyRepr x :: pyReprList xs

def pyReprFields : List (String × Json) → List String
  | [] => []
  | (k, v) :: fs => (pyQuote ++ k ++ pyQuote ++ ": " ++ pyRepr v) :: pyReprFields fs
end

/-- Python `str` of a decoded JSON value: a string is itself, any other
value is rendered by `repr`. -/
def pyStr (j : Json) : String :=
  match j with
  | .str s => s
  | _ => pyRepr j

/-- `d.get(k)` on a dict: the value of the first matching key, if the
value is a dict and the key is present; `none` when the key is absent
or the value is not a dict. -/
def lookupField (j : Json) (k : String) : Option Json :=
  match j with
  | .obj fs => fs.lookup k
  | _ => none

/-- Immutable client configuration, from `DigitalOceanAgentClient.__init__`. -/
structure Config where
  maxRetries : ℤ
  baseBackoff : ℚ
  maxBackoff : ℚ
  rateQps : ℚ
  rateBurst : ℤ
  rateCooldown : ℚ
deriving DecidableEq

/-- `self._default_retry_after = float(max(rate_cooldown, 0.0))`. -/
def Config.defaultRetryAfter (cfg : Config) : ℚ := max cfg.rateCooldown 0

/-- The mutable token-bucket / cooldown state of the client:
`self._tokens`, `self._last_refill`, `self._cooldown_until`. -/
structure LimiterState where
  tokens : ℚ
  lastRefill : ℚ
  cooldownUntil : ℚ
deriving DecidableEq

/-- Initial limiter state set in `__init__`: a full bucket
(`self._tokens = float(self._rate_burst)`), `last_refill` at the
construction time, `cooldown_until = 0.0`. -/
def initialState (cfg : Config) (t0 : ℚ) : LimiterState :=
  { tokens := (cfg.rateBurst : ℚ), lastRefill := t0, cooldownUntil := 0 }

/-- The `retry_after` argument of `_register_cooldown`: a float, `None`,
or a value that `float()` rejects (and that compares unequal to
`None`, `0` and `"0"`). -/
inductive RetryHint where
  | noHint
  | num (q : ℚ)
  | unparseable
deriving DecidableEq

/-- The `wait` value computed at the top of `_register_cooldown`:
`None`, `0` and `"0"` fall back to the default, as does a value
`float()` rejects; any other float is used as-is. -/
def effectiveWait (cfg : Config) : RetryHint → ℚ
  | .noHint => cfg.defaultRetryAfter
  | .num q => if q = 0 then cfg.defaultRetryAfter else q
  | .unparseable => cfg.defaultRetryAfter

/-- `_register_cooldown(retry_after)` run at monotonic time `now`:
a non-positive wait returns with no state change; otherwise the
resume-after timestamp is raised to `now + wait` when that is larger,
`last_refill` is reset to `now` and all tokens are dropped. -/
def registerCooldown (cfg : Config) (retryAfter : RetryHint) (now : ℚ)
    (s : LimiterState) : LimiterState :=
  let wait := effectiveWait cfg retryAfter
  if wait ≤ 0 then s
  else
    let target := now + wait
    { tokens := 0
      lastRefill := now
      cooldownUntil := if s.cooldownUntil < target then target else s.cooldownUntil }

/-- The refill phase of one `_acquire_token` loop iteration (the code
between reading `now` and testing `self._tokens >= 1.0`), reached only
when not in cooldown. -/
def refillState (cfg : Config) (now : ℚ) (s : LimiterState) : LimiterState :=
  let elapsed := max 0 (now - s.lastRefill)
  if 0 < elapsed then
    let refill := elapsed * cfg.rateQps
    let tokens1 := if 0 < refill then min ((cfg.rateBurst : ℚ)) (s.tokens + refill)
      else s.tokens
    { s with tokens := tokens1, lastRefill := now }
  else s

/-- Outcome of one `_acquire_token` loop iteration: the token was
debited and the call returns, or the caller must sleep. -/
inductive AcquireOutcome where
  | granted
  | waitFor (seconds : ℚ)
deriving DecidableEq

/-- One iteration of the `while True` loop of `_acquire_token`, executed
under `self._rate_lock` at monotonic time `now`. -/
def acquireStep (cfg : Config) (now : ℚ) (s : LimiterState) :
    AcquireOutcome × LimiterState :=
  if now < s.cooldownUntil then
    (.waitFor (s.cooldownUntil - now), s)
  else
    let s1 := refillState cfg now s
    if 1 ≤ s1.tokens then
      (.granted, { s1 with tokens := s1.tokens - 1 })
    else
      let needed := 1 - s1.tokens
      (.waitFor (if 0 < cfg.rateQps then needed / cfg.rateQps else 1), s1)

/-- An observation-point event on the shared limiter state: one
`_acquire_token` loop iteration, or one `_register_cooldown` call. -/
inductive LimiterEvent where
  | acquireIter (now : ℚ)
  | cooldownReg (hint : RetryHint) (now : ℚ)
deriving DecidableEq

/-- Apply one limiter event to the state. -/
def applyEvent (cfg : Config) (s : LimiterState) : LimiterEvent → LimiterState
  | .acquireIter now => (acquireStep cfg now s).2
  | .cooldownReg hint now => registerCooldown cfg hint now s

/-- Run a sequence of limiter events from a starting state. -/
def runEvents (cfg : Config) (s : LimiterState) (evs : List LimiterEvent) :
    LimiterState :=
  evs.foldl (applyEvent cfg) s

/-- The duration slept by `_sleep_backoff(attempt, retry_after)` when the
random draw is `r` (`random.random()`, in `[0,1)`): the pre-jitter delay
plus `delay * 0.1 * r` of jitter. -/
def sleepBackoffPre (cfg : Config) (attempt : ℕ) (retryAfter : Option ℚ) : ℚ :=
  match retryAfter with
  | some ra =>
    if 0 < ra then min ra cfg.maxBackoff
    else min (cfg.baseBackoff * 2 ^ attempt) cfg.maxBackoff
  | none => min (cfg.baseBackoff * 2 ^ attempt) cfg.maxBackoff

/-- The jitter added by `_sleep_backoff`: `to_sleep * 0.1 * random.random()`. -/
def sleepBackoffJitter (cfg : Config) (attempt : ℕ) (retryAfter : Option ℚ)
    (r : ℚ) : ℚ :=
  sleepBackoffPre cfg attempt retryAfter * (1 / 10) * r

/-- The total duration passed to `asyncio.sleep` by `_sleep_backoff`. -/
def sleepBackoffTotal (cfg : Config) (attempt : ℕ) (retryAfter : Option ℚ)
    (r : ℚ) : ℚ :=
  sleepBackoffPre cfg attempt retryAfter + sleepBackoffJitter cfg attempt retryAfter r

/-- An `httpx.Response`: status code, decoded JSON body when
`response.json()` succeeds, and the raw text used otherwise. -/
structure HttpResponse where
  status : ℤ
  body : Option Json
  text : String

/-- Faults the client can surface: a `DigitalOceanAgentError` built in
`_handle_response` from a non-2xx status, the `DigitalOceanAgentError`
raised by `create_session` when no session identifier is found, an
unhandled Python `AttributeError`, or a propagated `httpx.HTTPError`
(transport fault). -/
inductive Fault where
  | statusError (status : ℤ) (detail : Json)
  | noSessionId
  | attributeError
  | transport

/-- The two fault constructors that are `DigitalOceanAgentError`s. -/
def Fault.isAgentError : Fault → Bool
  | .statusError _ _ => true
  | .noSessionId => true
  | _ => false

/-- `_safe_json`: the decoded body, or `\x7b"raw_text": response.text\x7d`
when decoding fails. -/
def safeJson (r : HttpResponse) : Json :=
  match r.body with
  | some j => j
  | none => .obj [("raw_text", .str r.text)]

/-- `_handle_response`: `raise_for_status` raises on any non-2xx status,
which the method converts into a `DigitalOceanAgentError` carrying the
status code and the decoded detail; a 2xx response yields its decoded
body. -/
def handleResponse (r : HttpResponse) : Except Fault Json :=
  if 200 ≤ r.status ∧ r.status < 300 then .ok (safeJson r)
  else .error (.statusError r.status (safeJson r))

/-- What one HTTP attempt inside `_request_with_retries` produces: a
response, or an `httpx.HTTPError` (connection error, timeout, ...). -/
inductive AttemptResult where
  | response (r : HttpResponse)
  | httpError

/-- The observable result of `_request_with_retries`: a returned
response, a propagated transport exception, or the (unreachable)
trailing `RuntimeError`. -/
inductive RequestOutcome where
  | ok (r : HttpResponse)
  | transportError
  | runtimeErrorOut

/-- Events emitted while `_request_with_retries` runs, in order: a
`_acquire_token` call, an HTTP attempt (0-based index), a
`_register_cooldown` call, a `_sleep_backoff` call (1-based attempt
number). -/
inductive ReqEvent where
  | acquireToken
  | httpAttempt (idx : ℕ)
  | registerCooldownEv
  | sleepBackoffEv (attempt : ℕ)
deriving DecidableEq

/-- The body of the `for attempt in range(0, max(1, max_retries) + 1)`
loop of `_request_with_retries`, with the iterations still available as
fuel. Each iteration acquires a token, issues the attempt indexed by
`attempt` (its result given by `oracle`), returns any non-429 response
at once, and on a 429 registers a cooldown, returns the response when
`attempt >= max_retries`, and otherwise sleeps and retries; a transport
error likewise either propagates or leads to a backoff sleep and a
retry. Alongside the outcome the emitted event list is returned. -/
def requestLoop (cfg : Config) (oracle : ℕ → AttemptResult) :
    ℕ → ℕ → Bool → RequestOutcome × List ReqEvent
  | 0, _, hadExc => ((if hadExc then .transportError else .runtimeErrorOut), [])
  | fuel + 1, attempt, hadExc =>
    match oracle attempt with
    | .response r =>
      if r.status ≠ 429 then (.ok r, [.acquireToken, .httpAttempt attempt])
      else if cfg.maxRetries ≤ (attempt : ℤ) then
        (.ok r, [.acquireToken, .httpAttempt attempt, .registerCooldownEv])
      else
        let rest := requestLoop cfg oracle fuel (attempt + 1) hadExc
        (rest.1, [.acquireToken, .httpAttempt attempt, .registerCooldownEv,
                  .sleepBackoffEv (attempt + 1)] ++ rest.2)
    | .httpError =>
      if cfg.maxRetries ≤ (attempt : ℤ) then
        (.transportError, [.acquireToken, .httpAttempt attempt])
      else
        let rest := requestLoop cfg oracle fuel (attempt + 1) true
        (rest.1, [.acquireToken, .httpAttempt attempt,
                  .sleepBackoffEv (attempt + 1)] ++ rest.2)

/-- `_request_with_retries`: run the loop over
`range(0, max(1, self._max_retries) + 1)` starting at attempt 0 with no
exception recorded. -/
def requestWithRetries (cfg : Config) (oracle : ℕ → AttemptResult) :
    RequestOutcome × List ReqEvent :=
  requestLoop cfg oracle ((max 1 cfg.maxRetries).toNat + 1) 0 false

/-- Number of HTTP attempts in an event trace. -/
def countAttempts (evs : List ReqEvent) : ℕ :=
  (evs.filter fun e => match e with | .httpAttempt _ => true | _ => false).length

/-- Number of token acquisitions in an event trace. -/
def countAcquires (evs : List ReqEvent) : ℕ :=
  (evs.filter fun e => e = .acquireToken).length

/-- Every HTTP attempt in the trace is immediately preceded by a token
acquisition (`prev` is the event just before the list, if any). -/
def attemptsPreceded (prev : Option ReqEvent) : List ReqEvent → Bool
  | [] => true
  | e :: rest =>
    (match e with
     | .httpAttempt _ => prev = some .acquireToken
     | _ => true) && attemptsPreceded (some e) rest

/-- The event trace of a run during which every attempt from index `a`
on returns a 429: `n` more full blocks (acquire, attempt, cooldown,
sleep) followed by the final block (acquire, attempt, cooldown). -/
def sustained429Trace : ℕ → ℕ → List ReqEvent
  | 0, a => [.acquireToken, .httpAttempt a, .registerCooldownEv]
  | n + 1, a => [.acquireToken, .httpAttempt a, .registerCooldownEv,
                 .sleepBackoffEv (a + 1)] ++ sustained429Trace n (a + 1)

/-- The inner `for key in path` walk of `_extract_reply_text`: descend
one dict key at a time; the walk stops (fails) as soon as the current
node is not a dict holding the key. -/
def traversePath : Json → List String → Option Json
  | j, [] => some j
  | j, k :: ks =>
    match lookupField j k with
    | some v => traversePath v ks
    | none => none

/-- The `possible_paths` list of `_extract_reply_text`, in source order. -/
def possiblePaths : List (List String) :=
  [["message", "content"], ["response", "output"],
   ["response", "output_text"], ["data", "message", "content"]]

/-- Try candidate key paths in order; the first whose full traversal
succeeds and ends on a string wins. -/
def tryPaths (data : Json) : List (List String) → Option String
  | [] => none
  | p :: ps =>
    match traversePath data p with
    | some (.str s) => some s
    | _ => tryPaths data ps

/-- `_extract_reply_text`: the first candidate path yielding a string,
else `str(data)`. -/
def extractReplyText (data : Json) : String :=
  match tryPaths data possiblePaths with
  | some s => s
  | none => pyStr data

/-- The `try` block of `_extract_endpoint_reply_text`: when
`data.get("choices")` is a non-empty list whose first element is a dict,
return `choices[0].message.content` when that is a string, else
`choices[0].text` when that is a string. A first element that is not a
dict makes `first.get` raise `AttributeError`, which the bare `except`
swallows — so that case, like every other failure, yields `none`. -/
def endpointTry (data : Json) : Option String :=
  match lookupField data "choices" with
  | some (.arr (first :: _)) =>
    match first with
    | .obj _ =>
      let fromMsg :=
        match lookupField first "message" with
        | some msg =>
          match msg with
          | .obj _ =>
            match lookupField msg "content" with
            | some (.str s) => some s
            | _ => none
          | _ => none
        | none => none
      match fromMsg with
      | some s => some s
      | none =>
        match lookupField first "text" with
        | some (.str s) => some s
        | _ => none
    | _ => none
  | _ => none

/-- `_extract_endpoint_reply_text`: the OpenAI-like heuristics first,
then fall back to `_extract_reply_text`. -/
def extractEndpointReplyText (data : Json) : String :=
  match endpointTry data with
  | some s => s
  | none => extractReplyText data

/-- One step of a candidate path as the spec describes it: a dict field
or a list index. -/
inductive PathStep where
  | field (k : String)
  | index (i : ℕ)

/-- Modelled from the spec: traverse one step of a candidate path. -/
def stepGet (j : Json) : PathStep → Option Json
  | .field k => lookupField j k
  | .index i =>
    match j with
    | .arr xs => xs.get? i
    | _ => none

/-- Modelled from the spec: full traversal of a candidate path. -/
def specTraverse : Json → List PathStep → Option Json
  | j, [] => some j
  | j, st :: sts =>
    match stepGet j st with
    | some v => specTraverse v sts
    | none => none

/-- Modelled from the spec: the ordered candidate paths of the reply
extractor — in endpoint mode `choices[0].message.content` then
`choices[0].text` first, then the session-mode field paths. -/
def specCandidates (endpointMode : Bool) : List (List PathStep) :=
  (if endpointMode then
    [[.field "choices", .index 0, .field "message", .field "content"],
     [.field "choices", .index 0, .field "text"]]
   else []) ++
  [[.field "message", .field "content"],
   [.field "response", .field "output"],
   [.field "response", .field "output_text"],
   [.field "data", .field "message", .field "content"]]

/-- Modelled from the spec: the first candidate path whose full
traversal succeeds and yields a string. -/
def firstStringPath (data : Json) : List (List PathStep) → Option String
  | [] => none
  | p :: ps =>
    match specTraverse data p with
    | some (.str s) => some s
    | _ => firstStringPath data ps

/-- Modelled from the spec: reply extraction — the first candidate path
yielding a string, else the decoded body rendered as a string. -/
def specExtract (endpointMode : Bool) (data : Json) : String :=
  match firstStringPath data (specCandidates endpointMode) with
  | some s => s
  | none => pyStr data

/-- The session-id extraction of `create_session` applied to the decoded
2xx body: `data.get("session", \x7b\x7d).get("id") or data.get("id") or
data.get("session_id")`, then `str(...)`, raising
`DigitalOceanAgentError` when the chain is falsy. A non-dict body, or a
`"session"` entry that is not a dict, makes `.get` raise an (unhandled)
`AttributeError`. -/
def extractSessionId (data : Json) : Except Fault String :=
  match data with
  | .obj _ =>
    let sessionVal := (lookupField data "session").getD (.obj [])
    match sessionVal with
    | .obj _ =>
      let v1 := (lookupField sessionVal "id").getD .null
      let chain :=
        if pyTruthy v1 then v1
        else
          let v2 := (lookupField data "id").getD .null
          if pyTruthy v2 then v2
          else (lookupField data "session_id").getD .null
      if pyTruthy chain then .ok (pyStr chain)
      else .error .noSessionId
    | _ => .error .attributeError
  | _ => .error .attributeError

/-- Modelled from the spec: the first of `session.id`, `id`,
`session_id` that is present and truthy. -/
def specSessionLookup (data : Json) : Option Json :=
  let cands := [(lookupField data "session").bind (fun s => lookupField s "id"),
                lookupField data "id", lookupField data "session_id"]
  cands.foldr
    (fun c acc =>
      match c with
      | some v => if pyTruthy v then some v else acc
      | none => acc)
    none

/-- A configuration with the constructor defaults of
`DigitalOceanAgentClient.__init__`. -/
def demoCfg : Config :=
  { maxRetries := 3, baseBackoff := 1/2, maxBackoff := 60,
    rateQps := 5, rateBurst := 10, rateCooldown := 5 }

/-- The default configuration with `max_retries` lowered to 2. -/
def demoCfg2 : Config :=
  { maxRetries := 2, baseBackoff := 1/2, maxBackoff := 60,
    rateQps := 5, rateBurst := 10, rateCooldown := 5 }

/-- The default configuration except that `rate_cooldown` is 0 and the
refill rate is 0. -/
def zeroCooldownCfg : Config :=
  { maxRetries := 3, baseBackoff := 1/2, maxBackoff := 60,
    rateQps := 0, rateBurst := 10, rateCooldown := 0 }

/-- The token-count bounds of the rate limiter state. -/
def TokenBounds (cfg : Config) (s : LimiterState) : Prop :=
  0 ≤ s.tokens ∧ s.tokens ≤ (cfg.rateBurst : ℚ)

/-- A 429 response used by the C1 witness. -/
def resp429 : HttpResponse := { status := 429, body := some .null, text := "" }

/-- A 404 response used by the C6 witness. -/
def resp404 : HttpResponse := { status := 404, body := some .null, text := "" }

/-- The or-chain of `create_session` (Python truthiness, each lookup
defaulting to `None`) written as a function of the three lookups. -/
def sessionChain (o1 o2 o3 : Option Json) : Except Fault String :=
  let v1 := o1.getD .null
  let chain :=
    if pyTruthy v1 then v1
    else
      let v2 := o2.getD .null
      if pyTruthy v2 then v2 else o3.getD .null
  if pyTruthy chain then .ok (pyStr chain) else .error .noSessionId

/-- The first present-and-truthy candidate of a list of lookups. -/
def firstTruthy (cands : List (Option Json)) : Option Json :=
  cands.foldr
    (fun c acc =>
      match c with
      | some v => if pyTruthy v then some v else acc
      | none => acc)
    none

/-- C10: `_acquire_token` never divides by zero — in the branch where
the bucket lacks a full token after refill, the computed wait is
`(1 - tokens) / rate` when the configured rate is positive, and defaults
to 1.0 when the rate is zero or negative, for every `rate_qps` value. -/
theorem c10_acquire_wait_total (cfg : Config) (now : ℚ) (s : LimiterState)
    (hcd : ¬ now < s.cooldownUntil)
    (hlack : (refillState cfg now s).tokens < 1) :
    (acquireStep cfg now s).1 =
      .waitFor (if 0 < cfg.rateQps then
        (1 - (refillState cfg now s).tokens) / cfg.rateQps else 1) ∧
    (cfg.rateQps ≤ 0 → (acquireStep cfg now s).1 = .waitFor 1) := by
  have hnot : ¬ 1 ≤ (refillState cfg now s).tokens := not_le.mpr hlack
  constructor
  · simp [acquireStep, hcd, hnot]
  · intro hq
    simp [acquireStep, hcd, hnot, not_lt.mpr hq]

/-- Witness for C10 at a concrete state with rate 0. -/
theorem c10_acquire_wait_total_witness :
    (¬ (3 : ℚ) < ({ tokens := 0, lastRefill := 0, cooldownUntil := 0 :
        LimiterState }).cooldownUntil) ∧
    (refillState zeroCooldownCfg 3
      { tokens := 0, lastRefill := 0, cooldownUntil := 0 }).tokens < 1 ∧
    (acquireStep zeroCooldownCfg 3
      { tokens := 0, lastRefill := 0, cooldownUntil := 0 }).1 =
      .waitFor (if 0 < zeroCooldownCfg.rateQps then
        (1 - (refillState zeroCooldownCfg 3
          { tokens := 0, lastRefill := 0, cooldownUntil := 0 }).tokens) /
          zeroCooldownCfg.rateQps else 1) :=
  ⟨by norm_num, by norm_num [refillState, zeroCooldownCfg],
    (c10_acquire_wait_total zeroCooldownCfg 3
      { tokens := 0, lastRefill := 0, cooldownUntil := 0 }
      (by norm_num) (by norm_num [refillState, zeroCooldownCfg])).1⟩

/-- C9: when the hint is absent, zero, or unparseable and the configured
default cooldown is 0, `_register_cooldown` returns without modifying
`cooldown_until`, `tokens`, or `last_refill`. -/
theorem c9_cooldown_noop (cfg : Config) (hint : RetryHint) (now : ℚ)
    (s : LimiterState)
    (hhint : hint = .noHint ∨ hint = .num 0 ∨ hint = .unparseable)
    (hdef : cfg.defaultRetryAfter = 0) :
    (registerCooldown cfg hint now s).cooldownUntil = s.cooldownUntil ∧
    (registerCooldown cfg hint now s).tokens = s.tokens ∧
    (registerCooldown cfg hint now s).lastRefill = s.lastRefill := by
  have hw : effectiveWait cfg hint = 0 := by
    rcases hhint with h | h | h <;> subst h <;> simp [effectiveWait, hdef]
  unfold registerCooldown
  rw [hw]
  simp

/-- Witness for C9 with no hint and zero default cooldown. -/
theorem c9_cooldown_noop_witness :
    ((RetryHint.noHint = RetryHint.noHint ∨ RetryHint.noHint = .num 0 ∨
        RetryHint.noHint = .unparseable) ∧
      zeroCooldownCfg.defaultRetryAfter = 0) ∧
    (registerCooldown zeroCooldownCfg .noHint 7
      { tokens := 4, lastRefill := 1, cooldownUntil := 2 }).tokens =
      ({ tokens := 4, lastRefill := 1, cooldownUntil := 2 : LimiterState }).tokens :=
  ⟨⟨Or.inl rfl, by norm_num [zeroCooldownCfg, Config.defaultRetryAfter]⟩,
    (c9_cooldown_noop zeroCooldownCfg .noHint 7
      { tokens := 4, lastRefill := 1, cooldownUntil := 2 }
      (Or.inl rfl) (by norm_num [zeroCooldownCfg, Config.defaultRetryAfter])).2.1⟩

/-- C5 counterexample: with `rate_cooldown = 0` and no retry hint, a
registered violation leaves the 3 available tokens untouched, so the
token count is not set to zero on every call. -/
theorem c5_counterexample :
    (registerCooldown zeroCooldownCfg RetryHint.noHint 10
      { tokens := 3, lastRefill := 0, cooldownUntil := 0 }).tokens = 3 ∧
    (3 : ℚ) ≠ 0 := by
  norm_num [registerCooldown, effectiveWait, zeroCooldownCfg, Config.defaultRetryAfter]

/-- C5 (amended): whenever the effective wait of `_register_cooldown` is
positive — in particular whenever the parsed hint is a positive number,
or the hint is absent/zero/unparseable and the configured default
cooldown is positive — the token count is set to zero before the call
returns. -/
theorem c5_tokens_dropped (cfg : Config) (hint : RetryHint) (now : ℚ)
    (s : LimiterState) (h : 0 < effectiveWait cfg hint) :
    (registerCooldown cfg hint now s).tokens = 0 := by
  simp [registerCooldown, not_le.mpr h]

/-- Witness for the amended C5 with a positive hint and nonzero tokens. -/
theorem c5_tokens_dropped_witness :
    0 < effectiveWait demoCfg (.num 2) ∧
    (registerCooldown demoCfg (.num 2) 10
      { tokens := 3, lastRefill := 0, cooldownUntil := 0 }).tokens = 0 :=
  ⟨by norm_num [effectiveWait],
    c5_tokens_dropped demoCfg (.num 2) 10
      { tokens := 3, lastRefill := 0, cooldownUntil := 0 }
      (by norm_num [effectiveWait])⟩

/-- C2: the resume-after timestamp never decreases across
`_register_cooldown` calls, and two violations with positive hints `h1`
then `h2`, at times `t1 < t2` starting from no cooldown, leave
`cooldown_until = max (t1 + h1) (t2 + h2)`. -/
theorem c2_cooldown_monotone (cfg : Config) (s0 : LimiterState)
    (t1 t2 h1 h2 : ℚ) (ht0 : 0 ≤ t1) (ht : t1 < t2) (hh1 : 0 < h1)
    (hh2 : 0 < h2) (hinit : s0.cooldownUntil = 0) :
    (registerCooldown cfg (.num h2) t2
      (registerCooldown cfg (.num h1) t1 s0)).cooldownUntil =
      max (t1 + h1) (t2 + h2) ∧
    ∀ (s : LimiterState) (hint : RetryHint) (now : ℚ),
      s.cooldownUntil ≤ (registerCooldown cfg hint now s).cooldownUntil := by
  constructor
  · have hw1 : effectiveWait cfg (.num h1) = h1 := by
      simp [effectiveWait, hh1.ne']
    have hw2 : effectiveWait cfg (.num h2) = h2 := by
      simp [effectiveWait, hh2.ne']
    have e1 : (registerCooldown cfg (.num h1) t1 s0).cooldownUntil = t1 + h1 := by
      have hpos : s0.cooldownUntil < t1 + h1 := by rw [hinit]; linarith
      simp [registerCooldown, hw1, not_le.mpr hh1, hpos]
    have step : (registerCooldown cfg (.num h2) t2
        (registerCooldown cfg (.num h1) t1 s0)).cooldownUntil =
        if t1 + h1 < t2 + h2 then t2 + h2 else t1 + h1 := by
      conv_lhs => rw [registerCooldown]
      simp only [hw2, not_le.mpr hh2, if_false, e1]
    rw [step]
    rcases lt_or_le (t1 + h1) (t2 + h2) with hlt | hle
    · rw [if_pos hlt, max_eq_right hlt.le]
    · rw [if_neg (not_lt.mpr hle), max_eq_left hle]
  · intro s hint now
    by_cases hw : effectiveWait cfg hint ≤ 0
    · simp [registerCooldown, hw]
    · simp only [registerCooldown, if_neg hw]
      by_cases hlt : s.cooldownUntil < now + effectiveWait cfg hint
      · simp only [if_pos hlt]
        exact hlt.le
      · simp only [if_neg hlt]
        exact le_refl _

/-- Witness for C2: hints 2 then 1 at times 0 and 1 give resume-after 2. -/
theorem c2_cooldown_monotone_witness :
    ((0 : ℚ) ≤ 0 ∧ (0 : ℚ) < 1 ∧ (0 : ℚ) < 2 ∧ (0 : ℚ) < 1 ∧
      (initialState demoCfg 0).cooldownUntil = 0) ∧
    (registerCooldown demoCfg (.num 1) 1
      (registerCooldown demoCfg (.num 2) 0
        (initialState demoCfg 0))).cooldownUntil = max (0 + 2) (1 + 1) :=
  ⟨⟨le_refl 0, by norm_num, by norm_num, by norm_num,
      by norm_num [initialState]⟩,
    (c2_cooldown_monotone demoCfg (initialState demoCfg 0) 0 1 2 1
      (le_refl 0) (by norm_num) (by norm_num) (by norm_num)
      (by norm_num [initialState])).1⟩

/-- The refill phase either leaves the token count unchanged or raises
it to `min(burst, tokens + refill)` for a positive refill. -/
theorem refillState_tokens_cases (cfg : Config) (now : ℚ) (s : LimiterState) :
    (refillState cfg now s).tokens = s.tokens ∨
    ∃ refill : ℚ, 0 < refill ∧
      (refillState cfg now s).tokens =
        min ((cfg.rateBurst : ℚ)) (s.tokens + refill) := by
  unfold refillState
  by_cases he : 0 < max 0 (now - s.lastRefill)
  · by_cases hr : 0 < max 0 (now - s.lastRefill) * cfg.rateQps
    · right
      exact ⟨max 0 (now - s.lastRefill) * cfg.rateQps, hr, by simp [he, hr]⟩
    · left
      simp [he, hr]
  · left
    simp [he]

/-- The refill phase preserves the token bounds. -/
theorem tokenBounds_refillState (cfg : Config) (now : ℚ) (s : LimiterState)
    (hb : 0 ≤ cfg.rateBurst) (h : TokenBounds cfg s) :
    TokenBounds cfg (refillState cfg now s) := by
  obtain ⟨h0, h1⟩ := h
  rcases refillState_tokens_cases cfg now s with hc | ⟨refill, hrpos, hc⟩
  · exact ⟨hc ▸ h0, hc ▸ h1⟩
  · constructor
    · rw [hc]
      exact le_min (by exact_mod_cast hb) (by linarith)
    · rw [hc]
      exact min_le_left _ _

/-- One `_acquire_token` loop iteration preserves the token bounds. -/
theorem tokenBounds_acquireStep (cfg : Config) (now : ℚ) (s : LimiterState)
    (hb : 0 ≤ cfg.rateBurst) (h : TokenBounds cfg s) :
    TokenBounds cfg (acquireStep cfg now s).2 := by
  unfold acquireStep
  by_cases hcd : now < s.cooldownUntil
  · simpa [hcd] using h
  · simp only [if_neg hcd]
    have hr : TokenBounds cfg (refillState cfg now s) :=
      tokenBounds_refillState cfg now s hb h
    by_cases hg : 1 ≤ (refillState cfg now s).tokens
    · simp only [if_pos hg]
      refine ⟨?_, ?_⟩
      · show (0 : ℚ) ≤ (refillState cfg now s).tokens - 1
        linarith
      · show (refillState cfg now s).tokens - 1 ≤ (cfg.rateBurst : ℚ)
        linarith [hr.2]
    · simpa [hg] using hr

/-- A `_register_cooldown` call preserves the token bounds. -/
theorem tokenBounds_registerCooldown (cfg : Config) (hint : RetryHint)
    (now : ℚ) (s : LimiterState) (hb : 0 ≤ cfg.rateBurst)
    (h : TokenBounds cfg s) : TokenBounds cfg (registerCooldown cfg hint now s) := by
  by_cases hw : effectiveWait cfg hint ≤ 0
  · simpa [registerCooldown, hw] using h
  · refine ⟨?_, ?_⟩
    · simp [registerCooldown, hw]
    · have : (registerCooldown cfg hint now s).tokens = 0 := by
        simp [registerCooldown, hw]
      rw [this]
      exact_mod_cast hb

/-- Any sequence of limiter events preserves the token bounds. -/
theorem tokenBounds_runEvents (cfg : Config) (hb : 0 ≤ cfg.rateBurst)
    (s : LimiterState) (h : TokenBounds cfg s) (evs : List LimiterEvent) :
    TokenBounds cfg (runEvents cfg s evs) := by
  induction evs generalizing s with
  | nil => exact h
  | cons e rest ih =>
    have h1 : TokenBounds cfg (applyEvent cfg s e) := by
      cases e with
      | acquireIter now => exact tokenBounds_acquireStep cfg now s hb h
      | cooldownReg hint now => exact tokenBounds_registerCooldown cfg hint now s hb h
    exact ih (applyEvent cfg s e) h1

/-- C3: starting from a full bucket with nonnegative burst capacity, the
invariant `0 ≤ tokens ≤ burst` holds after any interleaved sequence of
`_acquire_token` iterations and `_register_cooldown` calls, whatever the
elapsed times between them. -/
theorem c3_token_invariant (cfg : Config) (t0 : ℚ) (hb : 0 ≤ cfg.rateBurst)
    (evs : List LimiterEvent) :
    0 ≤ (runEvents cfg (initialState cfg t0) evs).tokens ∧
    (runEvents cfg (initialState cfg t0) evs).tokens ≤ (cfg.rateBurst : ℚ) := by
  have hinit : TokenBounds cfg (initialState cfg t0) :=
    ⟨by show (0 : ℚ) ≤ (cfg.rateBurst : ℚ); exact_mod_cast hb,
      le_refl _⟩
  exact tokenBounds_runEvents cfg hb (initialState cfg t0) hinit evs

/-- Witness for C3 on a concrete schedule of iterations and violations. -/
theorem c3_token_invariant_witness :
    0 ≤ demoCfg.rateBurst ∧
    0 ≤ (runEvents demoCfg (initialState demoCfg 0)
      [.acquireIter 1, .cooldownReg (.num 2) 2, .acquireIter 3]).tokens :=
  ⟨by decide,
    (c3_token_invariant demoCfg 0 (by decide)
      [.acquireIter 1, .cooldownReg (.num 2) 2, .acquireIter 3]).1⟩

/-- Running the retry loop from attempt `a ≤ R` with enough fuel while
every attempt yields a 429 returns the response of attempt `R` and emits
the sustained-429 trace for attempts `a..R`. -/
theorem requestLoop_sustained429 (cfg : Config) (resp : ℕ → HttpResponse)
    (R : ℕ) (hR : cfg.maxRetries = (R : ℤ))
    (h429 : ∀ i, (resp i).status = 429) :
    ∀ (fuel a : ℕ) (hadExc : Bool), a ≤ R → R < a + fuel →
      requestLoop cfg (fun i => .response (resp i)) fuel a hadExc =
        (.ok (resp R), sustained429Trace (R - a) a) := by
  intro fuel
  induction fuel with
  | zero =>
    intro a hadExc ha hlt
    omega
  | succ n ih =>
    intro a hadExc ha hlt
    rw [requestLoop]
    simp only [h429 a]
    rw [if_neg (by simp)]
    by_cases hend : a = R
    · subst hend
      rw [if_pos (by rw [hR])]
      have : a - a = 0 := Nat.sub_self a
      rw [this, sustained429Trace]
    · have haR : a < R := lt_of_le_of_ne ha hend
      rw [if_neg (by rw [hR]; exact_mod_cast Nat.not_le.mpr haR)]
      rw [ih (a + 1) hadExc haR (by omega)]
      have hsub : R - a = (R - (a + 1)) + 1 := by omega
      rw [hsub, sustained429Trace]

/-- Attempt count of a sustained-429 trace. -/
theorem countAttempts_sustained429 (n a : ℕ) :
    countAttempts (sustained429Trace n a) = n + 1 := by
  induction n generalizing a with
  | zero => rfl
  | succ m ih =>
    rw [sustained429Trace]
    simp only [countAttempts, List.filter_append, List.length_append] at ih ⊢
    rw [ih (a + 1)]
    simp [List.filter]
    omega

/-- Acquisition count of a sustained-429 trace. -/
theorem countAcquires_sustained429 (n a : ℕ) :
    countAcquires (sustained429Trace n a) = n + 1 := by
  induction n generalizing a with
  | zero => rfl
  | succ m ih =>
    rw [sustained429Trace]
    simp only [countAcquires, List.filter_append, List.length_append] at ih ⊢
    rw [ih (a + 1)]
    simp [List.filter]
    omega

/-- In a sustained-429 trace every HTTP attempt is immediately preceded
by a token acquisition, whatever event precedes the trace. -/
theorem attemptsPreceded_sustained429 (n : ℕ) :
    ∀ (a : ℕ) (prev : Option ReqEvent),
      attemptsPreceded prev (sustained429Trace n a) = true := by
  induction n with
  | zero =>
    intro a prev
    simp [sustained429Trace, attemptsPreceded]
  | succ m ih =>
    intro a prev
    simp [sustained429Trace, attemptsPreceded, ih (a + 1)]

/-- C1: when every attempt returns status 429 and `max_retries = R ≥ 0`,
`_request_with_retries` issues exactly `R + 1` attempts, each
immediately preceded by a token acquisition, and returns the last 429
response as an ordinary return value (`RequestOutcome.ok`), not as an
exception. -/
theorem c1_sustained_429 (cfg : Config) (resp : ℕ → HttpResponse) (R : ℕ)
    (hR : cfg.maxRetries = (R : ℤ))
    (h429 : ∀ i, (resp i).status = 429) :
    requestWithRetries cfg (fun i => .response (resp i)) =
      (.ok (resp R), sustained429Trace R 0) ∧
    countAttempts (sustained429Trace R 0) = R + 1 ∧
    countAcquires (sustained429Trace R 0) = R + 1 ∧
    attemptsPreceded none (sustained429Trace R 0) = true := by
  have hfuel : R < 0 + ((max 1 cfg.maxRetries).toNat + 1) := by
    have h1 : (R : ℤ) ≤ max 1 cfg.maxRetries := by
      rw [hR] at *
      exact le_max_right _ _
    have h2 : R ≤ (max 1 cfg.maxRetries).toNat := by
      have := Int.toNat_le_toNat h1
      simpa using this
    omega
  refine ⟨?_, countAttempts_sustained429 R 0, countAcquires_sustained429 R 0,
    attemptsPreceded_sustained429 R 0 none⟩
  have := requestLoop_sustained429 cfg resp R hR h429
    ((max 1 cfg.maxRetries).toNat + 1) 0 false (Nat.zero_le R) hfuel
  rw [requestWithRetries, this]
  simp

/-- Witness for C1 with `max_retries = 2` and every attempt a 429. -/
theorem c1_sustained_429_witness :
    (demoCfg2.maxRetries = ((2 : ℕ) : ℤ) ∧
      ∀ i : ℕ, ((fun _ : ℕ => resp429) i).status = 429) ∧
    requestWithRetries demoCfg2 (fun i => .response ((fun _ : ℕ => resp429) i)) =
      (.ok ((fun _ : ℕ => resp429) 2), sustained429Trace 2 0) :=
  ⟨⟨rfl, fun _ => rfl⟩,
    (c1_sustained_429 demoCfg2 (fun _ => resp429) 2 rfl (fun _ => rfl)).1⟩

/-- C6: any attempt whose response is not a 429 makes
`_request_with_retries` return that response at once — the only events
of the iteration are the token acquisition and the attempt itself, with
no backoff sleep and no cooldown registration — and `_handle_response`
turns any non-2xx status into a `DigitalOceanAgentError` carrying the
status code and decoded body detail. -/
theorem c6_non429_terminal (cfg : Config) (oracle : ℕ → AttemptResult)
    (fuel attempt : ℕ) (hadExc : Bool) (r : HttpResponse)
    (hresp : oracle attempt = .response r) (hstatus : r.status ≠ 429) :
    requestLoop cfg oracle (fuel + 1) attempt hadExc =
      (.ok r, [.acquireToken, .httpAttempt attempt]) ∧
    (∀ s : HttpResponse, ¬ (200 ≤ s.status ∧ s.status < 300) →
      handleResponse s = .error (.statusError s.status (safeJson s))) := by
  constructor
  · rw [requestLoop]
    simp only [hresp]
    rw [if_pos hstatus]
  · intro s hs
    unfold handleResponse
    rw [if_neg hs]

/-- Witness for C6: a 404 on the first attempt is returned immediately
and classified as a `DigitalOceanAgentError`. -/
theorem c6_non429_terminal_witness :
    ((fun _ : ℕ => AttemptResult.response resp404) 0 = .response resp404 ∧
      resp404.status ≠ 429) ∧
    requestLoop demoCfg (fun _ => .response resp404) 4 0 false =
      (.ok resp404, [.acquireToken, .httpAttempt 0]) :=
  ⟨⟨rfl, by decide⟩,
    (c6_non429_terminal demoCfg (fun _ => .response resp404) 3 0 false resp404
      rfl (by decide)).1⟩

/-- C4: with no hint the pre-jitter delay for retry `k` is
`min(base_backoff * 2^k, max_backoff)`; with a positive hint it is
`min(hint, max_backoff)`; for every random draw in `[0,1)` the jitter is
nonnegative and at most 10% of the pre-jitter delay, and the total slept
delay never exceeds `max_backoff * 1.1`. -/
theorem c4_backoff_bounds (cfg : Config) (k : ℕ) (r : ℚ) (hk : 1 ≤ k)
    (hbase : 0 ≤ cfg.baseBackoff) (hmax : 0 ≤ cfg.maxBackoff)
    (hr0 : 0 ≤ r) (hr1 : r < 1) :
    sleepBackoffPre cfg k none = min (cfg.baseBackoff * 2 ^ k) cfg.maxBackoff ∧
    (∀ hint : ℚ, 0 < hint →
      sleepBackoffPre cfg k (some hint) = min hint cfg.maxBackoff) ∧
    (∀ retryAfter : Option ℚ,
      0 ≤ sleepBackoffJitter cfg k retryAfter r ∧
      sleepBackoffJitter cfg k retryAfter r ≤
        (1 / 10) * sleepBackoffPre cfg k retryAfter ∧
      sleepBackoffTotal cfg k retryAfter r ≤ cfg.maxBackoff * (11 / 10)) := by
  have hb2 : (0 : ℚ) ≤ cfg.baseBackoff * 2 ^ k := by positivity
  have hpre : ∀ retryAfter : Option ℚ, 0 ≤ sleepBackoffPre cfg k retryAfter ∧
      sleepBackoffPre cfg k retryAfter ≤ cfg.maxBackoff := by
    intro retryAfter
    match retryAfter with
    | none =>
      exact ⟨le_min hb2 hmax, min_le_right _ _⟩
    | some ra =>
      by_cases hra : 0 < ra
      · have : sleepBackoffPre cfg k (some ra) = min ra cfg.maxBackoff := by
          simp [sleepBackoffPre, hra]
        rw [this]
        exact ⟨le_min hra.le hmax, min_le_right _ _⟩
      · have : sleepBackoffPre cfg k (some ra) =
            min (cfg.baseBackoff * 2 ^ k) cfg.maxBackoff := by
          simp [sleepBackoffPre, hra]
        rw [this]
        exact ⟨le_min hb2 hmax, min_le_right _ _⟩
  have key : ∀ p : ℚ, 0 ≤ p → p ≤ cfg.maxBackoff →
      0 ≤ p * (1 / 10) * r ∧ p * (1 / 10) * r ≤ (1 / 10) * p ∧
      p + p * (1 / 10) * r ≤ cfg.maxBackoff * (11 / 10) := by
    intro p h0 h1
    have hru : p * (1 / 10) * r ≤ p * (1 / 10) * 1 := by
      apply mul_le_mul_of_nonneg_left hr1.le
      positivity
    have hshift : p * (1 / 10) ≤ cfg.maxBackoff * (1 / 10) := by
      apply mul_le_mul_of_nonneg_right h1
      norm_num
    refine ⟨by positivity, by linarith, by linarith⟩
  refine ⟨rfl, ?_, ?_⟩
  · intro hint hhint
    simp [sleepBackoffPre, hhint]
  · intro retryAfter
    obtain ⟨hp0, hpm⟩ := hpre retryAfter
    obtain ⟨k1, k2, k3⟩ := key _ hp0 hpm
    exact ⟨k1, k2, k3⟩

/-- Witness for C4 at the default configuration, retry 1, draw 1/2. -/
theorem c4_backoff_bounds_witness :
    (1 ≤ 1 ∧ (0 : ℚ) ≤ demoCfg.baseBackoff ∧ (0 : ℚ) ≤ demoCfg.maxBackoff ∧
      (0 : ℚ) ≤ 1/2 ∧ (1/2 : ℚ) < 1) ∧
    sleepBackoffPre demoCfg 1 none =
      min (demoCfg.baseBackoff * 2 ^ 1) demoCfg.maxBackoff :=
  ⟨⟨le_refl 1, by norm_num [demoCfg], by norm_num [demoCfg], by norm_num,
      by norm_num⟩,
    (c4_backoff_bounds demoCfg 1 (1/2) (le_refl 1) (by norm_num [demoCfg])
      (by norm_num [demoCfg]) (by norm_num) (by norm_num)).1⟩

/-- Key-only path traversal agrees with spec-level traversal on paths of
field steps. -/
theorem specTraverse_map_field (ks : List String) :
    ∀ d : Json, specTraverse d (ks.map PathStep.field) = traversePath d ks := by
  induction ks with
  | nil => intro d; rfl
  | cons k rest ih =>
    intro d
    simp only [List.map_cons, specTraverse, traversePath, stepGet]
    cases lookupField d k with
    | none => rfl
    | some v => exact ih v

/-- First-string search agrees across the field-step encoding. -/
theorem firstStringPath_map_field (ps : List (List String)) (d : Json) :
    firstStringPath d (ps.map (fun p => p.map PathStep.field)) = tryPaths d ps := by
  induction ps with
  | nil => rfl
  | cons p rest ih =>
    simp only [List.map_cons, firstStringPath, tryPaths, specTraverse_map_field, ih]

/-- First-string search distributes over concatenation of candidates. -/
theorem firstStringPath_append (d : Json) (l1 l2 : List (List PathStep)) :
    firstStringPath d (l1 ++ l2) =
      (match firstStringPath d l1 with
       | some s => some s
       | none => firstStringPath d l2) := by
  induction l1 with
  | nil => rfl
  | cons p rest ih =>
    simp only [List.cons_append, firstStringPath]
    cases specTraverse d p with
    | none => exact ih
    | some v =>
      cases v
      case str s => rfl
      all_goals exact ih

/-- Field lookup on a non-dict value yields nothing. -/
theorem lookupField_str (t k : String) : lookupField (.str t) k = none := rfl

/-- Field lookup on a number yields nothing. -/
theorem lookupField_num (q : ℚ) (k : String) : lookupField (.num q) k = none := rfl

/-- Field lookup on a boolean yields nothing. -/
theorem lookupField_bool (b : Bool) (k : String) : lookupField (.bool b) k = none := rfl

/-- Field lookup on null yields nothing. -/
theorem lookupField_null (k : String) : lookupField .null k = none := rfl

/-- Field lookup on a list yields nothing. -/
theorem lookupField_arr (xs : List Json) (k : String) : lookupField (.arr xs) k = none := rfl

/-- The endpoint-mode heuristics of `_extract_endpoint_reply_text` equal
the first-string search over the two spec-level endpoint candidate
paths. -/
theorem endpointTry_eq_firstStringPath (d : Json) :
    endpointTry d = firstStringPath d
      [[.field "choices", .index 0, .field "message", .field "content"],
       [.field "choices", .index 0, .field "text"]] := by
  cases hc : lookupField d "choices" with
  | none => simp [endpointTry, firstStringPath, specTraverse, stepGet, hc]
  | some v =>
    cases v
    case arr xs =>
      cases xs with
      | nil =>
        simp [endpointTry, firstStringPath, specTraverse, stepGet, hc, List.get?]
      | cons first rest =>
        cases first
        case obj fs =>
          cases hm : lookupField (Json.obj fs) "message" with
          | none =>
            cases ht : lookupField (Json.obj fs) "text" with
            | none =>
              simp [endpointTry, firstStringPath, specTraverse, stepGet, hc, hm,
                ht, List.get?]
            | some w =>
              cases w <;>
                simp [endpointTry, firstStringPath, specTraverse, stepGet, hc,
                  hm, ht, List.get?]
          | some msg =>
            cases msg
            case obj ms =>
              cases hcon : lookupField (Json.obj ms) "content" with
              | none =>
                cases ht : lookupField (Json.obj fs) "text" with
                | none =>
                  simp [endpointTry, firstStringPath, specTraverse, stepGet, hc,
                    hm, hcon, ht, List.get?]
                | some w =>
                  cases w <;>
                    simp [endpointTry, firstStringPath, specTraverse, stepGet,
                      hc, hm, hcon, ht, List.get?]
              | some cv =>
                cases cv
                case str s =>
                  simp [endpointTry, firstStringPath, specTraverse, stepGet, hc,
                    hm, hcon, List.get?]
                all_goals
                  cases ht : lookupField (Json.obj fs) "text" with
                  | none =>
                    simp [endpointTry, firstStringPath, specTraverse, stepGet,
                      hc, hm, hcon, ht, List.get?]
                  | some w =>
                    cases w <;>
                      simp [endpointTry, firstStringPath, specTraverse, stepGet,
                        hc, hm, hcon, ht, List.get?]
            all_goals
              cases ht : lookupField (Json.obj fs) "text" with
              | none =>
                simp [endpointTry, firstStringPath, specTraverse, stepGet, hc,
                  hm, ht, lookupField_str, lookupField_num, lookupField_bool,
                  lookupField_null, lookupField_arr, List.get?]
              | some w =>
                cases w <;>
                  simp [endpointTry, firstStringPath, specTraverse, stepGet, hc,
                    hm, ht, lookupField_str, lookupField_num, lookupField_bool,
                  lookupField_null, lookupField_arr, List.get?]
        all_goals
          simp [endpointTry, firstStringPath, specTraverse, stepGet, hc,
            lookupField_str, lookupField_num, lookupField_bool,
            lookupField_null, lookupField_arr, List.get?]
    all_goals
      simp [endpointTry, firstStringPath, specTraverse, stepGet, hc, List.get?]

/-- Session-mode reply extraction equals the spec-level extractor run
without the endpoint candidates. -/
theorem extractReplyText_eq_spec (d : Json) :
    extractReplyText d = specExtract false d := by
  unfold extractReplyText specExtract
  rw [show specCandidates false =
      possiblePaths.map (fun p => p.map PathStep.field) from rfl]
  rw [firstStringPath_map_field]

/-- Endpoint-mode reply extraction equals the spec-level extractor run
with the endpoint candidates first. -/
theorem extractEndpointReplyText_eq_spec (d : Json) :
    extractEndpointReplyText d = specExtract true d := by
  have h1 : specExtract true d =
      (match endpointTry d with
       | some s => s
       | none => specExtract false d) := by
    unfold specExtract
    rw [show specCandidates true =
        [[.field "choices", .index 0, .field "message", .field "content"],
         [.field "choices", .index 0, .field "text"]] ++ specCandidates false
        from rfl]
    rw [firstStringPath_append, ← endpointTry_eq_firstStringPath]
    cases endpointTry d with
    | some s => rfl
    | none => rfl
  rw [h1]
  unfold extractEndpointReplyText
  cases endpointTry d with
  | some s => rfl
  | none => exact extractReplyText_eq_spec d

/-- C7: reply extraction tries the candidate field paths in their fixed
order — in endpoint mode `choices[0].message.content` then
`choices[0].text` before the session-mode paths (message,content),
(response,output), (response,output_text), (data,message,content) — and
returns the first path whose full traversal yields a string; when no
path resolves the decoded body rendered as a string is returned rather
than an error; the two scenario bodies behave as claimed. -/
theorem c7_reply_extraction (data : Json) :
    extractEndpointReplyText data = specExtract true data ∧
    extractReplyText data = specExtract false data ∧
    (tryPaths data possiblePaths = none → extractReplyText data = pyStr data) ∧
    extractReplyText (.obj [("message", .obj [("content", .str "hello")])]) =
      "hello" ∧
    extractReplyText (.obj [("foo", .str "bar")]) =
      pyStr (.obj [("foo", .str "bar")]) := by
  refine ⟨extractEndpointReplyText_eq_spec data, extractReplyText_eq_spec data,
    ?_, rfl, rfl⟩
  intro h
  unfold extractReplyText
  rw [h]

/-- Witness for C7: the unrecognized body has no matching path and falls
back to its rendering. -/
theorem c7_reply_extraction_witness :
    tryPaths (.obj [("foo", .str "bar")]) possiblePaths = none ∧
    extractReplyText (.obj [("foo", .str "bar")]) =
      pyStr (.obj [("foo", .str "bar")]) :=
  ⟨rfl, (c7_reply_extraction (.obj [("foo", .str "bar")])).2.2.1 rfl⟩

/-- The or-chain agrees with the first present-and-truthy candidate. -/
theorem sessionChain_eq_firstTruthy (o1 o2 o3 : Option Json) :
    sessionChain o1 o2 o3 =
      (match firstTruthy [o1, o2, o3] with
       | some v => Except.ok (pyStr v)
       | none => Except.error Fault.noSessionId) := by
  cases o1 <;> cases o2 <;> cases o3 <;>
    simp only [sessionChain, firstTruthy, List.foldr, Option.getD_some,
      Option.getD_none] <;>
    (repeat' split) <;> simp_all [pyTruthy]

/-- `specSessionLookup` spelt with `firstTruthy`. -/
theorem specSessionLookup_eq (data : Json) :
    specSessionLookup data =
      firstTruthy
        [(lookupField data "session").bind (fun s => lookupField s "id"),
         lookupField data "id", lookupField data "session_id"] := rfl

/-- On a dict body whose `"session"` entry (when present) is a dict, the
session-id extraction of `create_session` returns the first truthy of
`session.id`, `id`, `session_id` as a string, else the dedicated
`DigitalOceanAgentError`. -/
theorem extractSessionId_eq_spec (data : Json)
    (hobj : ∃ fs, data = Json.obj fs)
    (hsess : ∀ v, lookupField data "session" = some v → ∃ gs, v = Json.obj gs) :
    extractSessionId data =
      (match specSessionLookup data with
       | some v => Except.ok (pyStr v)
       | none => Except.error Fault.noSessionId) := by
  obtain ⟨fs, rfl⟩ := hobj
  cases hs : lookupField (Json.obj fs) "session" with
  | none =>
    have e1 : extractSessionId (Json.obj fs) =
        sessionChain (lookupField (Json.obj []) "id")
          (lookupField (Json.obj fs) "id")
          (lookupField (Json.obj fs) "session_id") := by
      simp only [extractSessionId, hs, Option.getD_none]
      rfl
    rw [e1, sessionChain_eq_firstTruthy, specSessionLookup_eq, hs]
    rfl
  | some v =>
    obtain ⟨gs, rfl⟩ := hsess v hs
    have e1 : extractSessionId (Json.obj fs) =
        sessionChain (lookupField (Json.obj gs) "id")
          (lookupField (Json.obj fs) "id")
          (lookupField (Json.obj fs) "session_id") := by
      simp only [extractSessionId, hs, Option.getD_some]
      rfl
    rw [e1, sessionChain_eq_firstTruthy, specSessionLookup_eq, hs]
    rfl

/-- C8 counterexample: on the decoded 2xx body
`\x7b"session": "x", "id": "abc"\x7d` the claimed extraction order would
return handle `"abc"`, but `create_session` evaluates
`data.get("session", \x7b\x7d).get("id")` on the string `"x"` and dies
with an unhandled `AttributeError` — neither the claimed handle nor a
`DigitalOceanAgentError`. -/
theorem c8_counterexample :
    extractSessionId (.obj [("session", .str "x"), ("id", .str "abc")]) =
      .error .attributeError ∧
    (Except.error Fault.attributeError ≠
      (Except.ok "abc" : Except Fault String)) ∧
    Fault.attributeError.isAgentError = false := by
  refine ⟨rfl, ?_, rfl⟩
  simp

/-- C8 (amended): for every successful session-creation body that is a
JSON object whose `"session"` entry, when present, is itself an object,
`create_session` extracts the identifier by trying `session.id`, then
`id`, then `session_id` in that order, returning the first truthy one as
a string (the body `\x7b"id": "abc"\x7d` yields handle `"abc"`); when
none is found it raises a `DigitalOceanAgentError`, which is distinct
from a transport-level fault. -/
theorem c8_session_extraction (data : Json)
    (hobj : ∃ fs, data = Json.obj fs)
    (hsess : ∀ v, lookupField data "session" = some v → ∃ gs, v = Json.obj gs) :
    extractSessionId data =
      (match specSessionLookup data with
       | some v => Except.ok (pyStr v)
       | none => Except.error Fault.noSessionId) ∧
    extractSessionId (.obj [("id", .str "abc")]) = .ok "abc" ∧
    Fault.noSessionId.isAgentError = true ∧
    Fault.transport.isAgentError = false :=
  ⟨extractSessionId_eq_spec data hobj hsess, rfl, rfl, rfl⟩

/-- Witness for C8 on the scenario body `\x7b"id": "abc"\x7d`. -/
theorem c8_session_extraction_witness :
    ((∃ fs, Json.obj [("id", Json.str "abc")] = Json.obj fs) ∧
      (∀ v, lookupField (Json.obj [("id", Json.str "abc")]) "session" = some v →
        ∃ gs, v = Json.obj gs)) ∧
    extractSessionId (Json.obj [("id", Json.str "abc")]) =
      (match specSessionLookup (Json.obj [("id", Json.str "abc")]) with
       | some v => Except.ok (pyStr v)
       | none => Except.error Fault.noSessionId) :=
  ⟨⟨⟨_, rfl⟩, fun _ h => Option.noConfusion h⟩,
    (c8_session_extraction (Json.obj [("id", Json.str "abc")])
      ⟨_, rfl⟩ (fun _ h => Option.noConfusion h)).1⟩
